import Mathlib

set_option autoImplicit false

/-!
Verification of the SoundSplitter face-comparison core
(`face_recognition_compare.py`).

The file embeds the pipeline of `compare_faces` in Lean:

* the arithmetic performed on in-memory pixel buffers (histograms, min-max
  normalisation, OpenCV's correlation comparison, mean absolute differences,
  clamping and thresholding) is embedded concretely over `ℚ`;
* the OpenCV library primitives the script calls (`cv2.imread`,
  `cv2.cvtColor`, `detectMultiScale`, array cropping, `cv2.resize`) are
  abstract parameters collected in a `CV` structure.  Each of them may fail
  (`Except String`), which models a Python exception propagating to the
  `except Exception` handler of `compare_faces`; `cv2.imread` failure is
  modelled by the `Option Img` inputs, since `imread` returns `None` rather
  than raising.

Floating-point doubles are modelled by exact rationals; `Rat.sqrt` stands in
for the double-precision square root (it is exact on the perfect squares that
the degenerate cases analysed below produce).
-/

/-- An 8-bit pixel value of one channel (0–255). -/
abbrev Pix := ℕ

/-- A BGR colour pixel: (blue, green, red) channel values, in OpenCV's
channel order. -/
abbrev Pix3 := Pix × Pix × Pix

/-- A detected face rectangle `(x, y, w, h)`, as produced by
`detectMultiScale`. -/
structure Region where
  x : ℕ
  y : ℕ
  w : ℕ
  h : ℕ
deriving DecidableEq, Repr

/-- The pixel area `w * h` of a region, as computed in `get_largest_face`. -/
def Region.area (r : Region) : ℕ := r.w * r.h

/-- The result dictionary of `compare_faces`: keys `similarity`,
`person_change`, `confidence`, and the optional `error` key. -/
structure SimilarityResult where
  similarity : ℚ
  person_change : Bool
  confidence : ℚ
  error : Option String
deriving DecidableEq, Repr

/-- The OpenCV primitives used by `compare_faces`, kept abstract.  Every
image-producing primitive may raise (`Except String`); reading the pixel
buffer of an in-memory image (`pix3` for a colour image, `pix1` for a
grayscale image, both flattened in row-major order) is pure. -/
structure CV (Img : Type) where
  cvtColorGray : Img → Except String Img
  detectMultiScale : Img → Except String (List Region)
  crop : Img → Region → Except String Img
  resize100 : Img → Except String Img
  pix3 : Img → List Pix3
  pix1 : Img → List Pix

/-- Absolute difference `|a - b|` on unsigned pixel values (`cv2.absdiff`). -/
def absdiff (a b : ℕ) : ℕ := max a b - min a b

/-- Flattened `cv2.absdiff` of two grayscale buffers. -/
def absdiff1 (p q : List Pix) : List ℕ := List.zipWith absdiff p q

/-- Mean `np.mean(cv2.absdiff(p, q))` for grayscale buffers. -/
def meanAbsDiff1 (p q : List Pix) : ℚ :=
  ((absdiff1 p q).sum : ℚ) / ((absdiff1 p q).length : ℚ)

/-- Per-pixel sum of the three channel differences of `cv2.absdiff` on
colour buffers. -/
def absdiff3 (p q : List Pix3) : List ℕ :=
  List.zipWith (fun u v => absdiff u.1 v.1 + absdiff u.2.1 v.2.1 + absdiff u.2.2 v.2.2) p q

/-- Mean `np.mean(cv2.absdiff(p, q))` for colour buffers: the element count of
the difference array is three channel values per pixel. -/
def meanAbsDiff3 (p q : List Pix3) : ℚ :=
  ((absdiff3 p q).sum : ℚ) / (3 * ((absdiff3 p q).length : ℚ))

/-- The first (blue) channel of a colour buffer: `cv2.calcHist([img], [0],
None, [256], [0, 256])` histograms channel 0 only. -/
def chan0 (p : List Pix3) : List Pix := p.map Prod.fst

/-- Histogram `cv2.calcHist([img], [0], None, [256], [0, 256])`: the count of pixels
of each 8-bit value in the first channel. -/
def calcHist256 (chan : List Pix) : Fin 256 → ℚ :=
  fun i => ((chan.countP fun v => v = i.val) : ℚ)

/-- The largest bin value of a histogram. -/
def histMax (h : Fin 256 → ℚ) : ℚ := Finset.univ.sup' Finset.univ_nonempty h

/-- The smallest bin value of a histogram. -/
def histMin (h : Fin 256 → ℚ) : ℚ := Finset.univ.inf' Finset.univ_nonempty h

/-- Normalisation `cv2.normalize(h, h, 0, 1, cv2.NORM_MINMAX)`: affine rescale of the bins
onto [0, 1].  When the bins are all equal OpenCV takes scale 0 and shift 0,
so the output is identically 0 rather than a division by zero. -/
def normMinMax (h : Fin 256 → ℚ) : Fin 256 → ℚ :=
  fun i =>
    if histMax h = histMin h then 0
    else (h i - histMin h) / (histMax h - histMin h)

/-- Comparison `cv2.compareHist(·, ·, cv2.HISTCMP_CORREL)` over 256-bin histograms, in
OpenCV's accumulation form: `(s12 - s1*s2/N) / sqrt((s11 - s1²/N) * (s22 -
s2²/N))` with `N = 256`, returning 1 when the variance product vanishes
(OpenCV's epsilon guard).  `Rat.sqrt` models the double square root. -/
def histCorrel (a b : Fin 256 → ℚ) : ℚ :=
  let total : ℚ := 256
  let s1 : ℚ := ∑ i, a i
  let s2 : ℚ := ∑ i, b i
  let s11 : ℚ := ∑ i, a i * a i
  let s22 : ℚ := ∑ i, b i * b i
  let s12 : ℚ := ∑ i, a i * b i
  let num := s12 - s1 * s2 / total
  let denom2 := (s11 - s1 * s1 / total) * (s22 - s2 * s2 / total)
  if denom2 = 0 then 1 else num / Rat.sqrt denom2

/-- The `hist_similarity` local of `compare_face_regions`: correlation of
the min-max-normalised first-channel histograms of the two patches. -/
def hist_similarity (face1 face2 : List Pix3) : ℚ :=
  histCorrel (normMinMax (calcHist256 (chan0 face1)))
    (normMinMax (calcHist256 (chan0 face2)))

/-- The `pixel_similarity` local of `compare_face_regions`:
`1 - mean(|face1 - face2|) / 255`. -/
def pixel_similarity (face1 face2 : List Pix3) : ℚ :=
  1 - meanAbsDiff3 face1 face2 / 255

/-- The function `compare_face_regions`: 0.3 when either region is absent, otherwise the
fusion `hist_similarity * 0.6 + pixel_similarity * 0.4` clamped to [0, 1] by
`max(0.0, min(1.0, ·))`. -/
def compare_face_regions (face1 face2 : Option (List Pix3)) : ℚ :=
  match face1, face2 with
  | some f1, some f2 =>
      max 0 (min 1 (hist_similarity f1 f2 * (6/10) + pixel_similarity f1 f2 * (4/10)))
  | _, _ => 3/10

/-- One step of the `get_largest_face` scan: the candidate replaces the
running best only when its area strictly exceeds the best area. -/
def largestStep (acc : ℕ × Option Region) (f : Region) : ℕ × Option Region :=
  if f.area > acc.1 then (f.area, some f) else acc

/-- The function `get_largest_face`: `None` on an empty list, otherwise the scan for the
largest area starting from `largest_area = 0`, `largest_face = None`. -/
def get_largest_face (faces : List Region) : Option Region :=
  if faces.length = 0 then none
  else (faces.foldl largestStep (0, none)).2

/-- The function `extract_face_region`: `None` passes through; otherwise the rectangle is
cropped out of the image and the crop resized to 100×100. -/
def extract_face_region {Img : Type} (cv : CV Img) (image : Img) (face : Option Region) :
    Except String (Option Img) :=
  match face with
  | none => .ok none
  | some f =>
    match cv.crop image f with
    | .error e => .error e
    | .ok c =>
      match cv.resize100 c with
      | .error e => .error e
      | .ok r => .ok (some r)

/-- The function `basic_image_comparison`: resize both frames to 100×100, convert both to
grayscale, and clamp `1 - mean(|gray1 - gray2|)/255` to [0, 1]. -/
def basic_image_comparison {Img : Type} (cv : CV Img) (image1 image2 : Img) :
    Except String ℚ :=
  match cv.resize100 image1 with
  | .error e => .error e
  | .ok image1_resized =>
    match cv.resize100 image2 with
    | .error e => .error e
    | .ok image2_resized =>
      match cv.cvtColorGray image1_resized with
      | .error e => .error e
      | .ok gray1 =>
        match cv.cvtColorGray image2_resized with
        | .error e => .error e
        | .ok gray2 =>
          .ok (max 0 (min 1 (1 - meanAbsDiff1 (cv.pix1 gray1) (cv.pix1 gray2) / 255)))

/-- The no-face branch of `compare_faces`: score by `basic_image_comparison`
and threshold `person_change` at 0.7. -/
def fallback_branch {Img : Type} (cv : CV Img) (img1 img2 : Img) :
    Except String SimilarityResult :=
  match basic_image_comparison cv img1 img2 with
  | .error e => .error e
  | .ok similarity =>
      .ok ⟨similarity, decide (similarity < 7/10), similarity, none⟩

/-- The face branch of `compare_faces`: select the largest face of each
image, extract both regions, score them with `compare_face_regions`, and
threshold `person_change` at 0.6. -/
def face_branch {Img : Type} (cv : CV Img) (img1 img2 : Img)
    (faces1 faces2 : List Region) : Except String SimilarityResult :=
  match extract_face_region cv img1 (get_largest_face faces1) with
  | .error e => .error e
  | .ok face1_region =>
    match extract_face_region cv img2 (get_largest_face faces2) with
    | .error e => .error e
    | .ok face2_region =>
      let similarity :=
        compare_face_regions (face1_region.map cv.pix3) (face2_region.map cv.pix3)
      .ok ⟨similarity, decide (similarity < 6/10), similarity, none⟩

/-- The body of the `try` block of `compare_faces`.  An `.error` value is a
Python exception reaching the `except Exception` handler; returning the
degraded 0.3 result on a failed load is a `return` inside the `try`, hence
`.ok`. -/
def compare_faces_try {Img : Type} (cv : CV Img) (image1 image2 : Option Img) :
    Except String SimilarityResult :=
  match image1, image2 with
  | some img1, some img2 =>
    match cv.cvtColorGray img1 with
    | .error e => .error e
    | .ok gray1 =>
      match cv.cvtColorGray img2 with
      | .error e => .error e
      | .ok gray2 =>
        match cv.detectMultiScale gray1 with
        | .error e => .error e
        | .ok faces1 =>
          match cv.detectMultiScale gray2 with
          | .error e => .error e
          | .ok faces2 =>
            if faces1.length = 0 ∨ faces2.length = 0 then
              fallback_branch cv img1 img2
            else
              face_branch cv img1 img2 faces1 faces2
  | _, _ => .ok ⟨3/10, true, 3/10, some "Failed to load images"⟩

/-- The function `compare_faces`: run the `try` body; an escaping exception is caught and
mapped to the neutral degraded result `{0.5, False, 0.5, error}`. -/
def compare_faces {Img : Type} (cv : CV Img) (image1 image2 : Option Img) :
    SimilarityResult :=
  match compare_faces_try cv image1 image2 with
  | .ok r => r
  | .error e => ⟨1/2, false, 1/2, some e⟩

/-- A backend on the unit image type whose grayscale conversion raises,
driving `compare_faces` into its exception handler. -/
def cvBoom : CV Unit where
  cvtColorGray := fun _ => .error "boom"
  detectMultiScale := fun _ => .ok []
  crop := fun _ _ => .ok ()
  resize100 := fun _ => .ok ()
  pix3 := fun _ => []
  pix1 := fun _ => []

/-- A trivial backend on the unit image type: detection finds one unit
square, every transformation succeeds, and all pixel buffers are empty. -/
def cvUnit : CV Unit where
  cvtColorGray := fun _ => .ok ()
  detectMultiScale := fun _ => .ok [⟨0, 0, 1, 1⟩]
  crop := fun _ _ => .ok ()
  resize100 := fun _ => .ok ()
  pix3 := fun _ => []
  pix1 := fun _ => []

/-- The face list of the trivial backend. -/
def facesW : List Region := [⟨0, 0, 1, 1⟩]

/-- Modelled on the spec's words: the mean of a 256-bin histogram. -/
def specMean (a : Fin 256 → ℚ) : ℚ := (∑ i, a i) / 256

/-- Modelled on the spec's words: the covariance-style numerator
`Σᵢ (aᵢ - mean a)(bᵢ - mean b)` of the correlation coefficient. -/
def specCov (a b : Fin 256 → ℚ) : ℚ :=
  ∑ i, (a i - specMean a) * (b i - specMean b)

/-- Modelled on the spec's words: the textbook correlation coefficient
`Σ(aᵢ-ā)(bᵢ-b̄) / sqrt(Σ(aᵢ-ā)² · Σ(bᵢ-b̄)²)`, with the same
zero-denominator convention as the code (OpenCV returns 1 there). -/
def specCorrel (a b : Fin 256 → ℚ) : ℚ :=
  if specCov a a * specCov b b = 0 then 1
  else specCov a b / Rat.sqrt (specCov a a * specCov b b)

/-- A histogram with a single spike of height `v` in bin `c`. -/
def spike (c : ℕ) (v : ℚ) : Fin 256 → ℚ := fun i => if i.val = c then v else 0

/-- Guarded division: `none` marks a division whose denominator is zero,
i.e. a division fault on the corresponding unguarded path. -/
def guardedDiv (a b : ℚ) : Option ℚ := if b = 0 then none else some (a / b)

/-- Variant of `normMinMax` with its single division guarded: OpenCV's min-max
normalisation takes scale 0 instead of dividing when max = min (first
branch); otherwise it divides once by `max - min` to form the scale. -/
def normMinMaxChecked (h : Fin 256 → ℚ) : Option (Fin 256 → ℚ) :=
  if histMax h = histMin h then some (fun _ => 0)
  else (guardedDiv 1 (histMax h - histMin h)).map
    (fun s => fun i => (h i - histMin h) * s)

/-- Variant of `histCorrel` with its division guarded: OpenCV's epsilon test returns 1
instead of dividing when the variance product vanishes. -/
def histCorrelChecked (a b : Fin 256 → ℚ) : Option ℚ :=
  let total : ℚ := 256
  let s1 : ℚ := ∑ i, a i
  let s2 : ℚ := ∑ i, b i
  let s11 : ℚ := ∑ i, a i * a i
  let s22 : ℚ := ∑ i, b i * b i
  let s12 : ℚ := ∑ i, a i * b i
  let num := s12 - s1 * s2 / total
  let denom2 := (s11 - s1 * s1 / total) * (s22 - s2 * s2 / total)
  if denom2 = 0 then some 1 else guardedDiv num (Rat.sqrt denom2)

/-- The histogram path of `compare_face_regions` with every division
guarded. -/
def histSimilarityChecked (face1 face2 : List Pix3) : Option ℚ :=
  (normMinMaxChecked (calcHist256 (chan0 face1))).bind fun h1 =>
    (normMinMaxChecked (calcHist256 (chan0 face2))).bind fun h2 =>
      histCorrelChecked h1 h2

/-- A backend on the unit image type that detects no faces anywhere. -/
def cvNoFace : CV Unit where
  cvtColorGray := fun _ => .ok ()
  detectMultiScale := fun _ => .ok []
  crop := fun _ _ => .ok ()
  resize100 := fun _ => .ok ()
  pix3 := fun _ => []
  pix1 := fun _ => []

/-- The output of `compare_face_regions` always lies in [0, 1]: both the
clamped fusion and the 0.3 missing-region default do. -/
theorem compare_face_regions_bounds (a b : Option (List Pix3)) :
    0 ≤ compare_face_regions a b ∧ compare_face_regions a b ≤ 1 := by
  match a, b with
  | some f1, some f2 =>
      exact ⟨le_max_left 0 _, max_le (by norm_num) (min_le_left 1 _)⟩
  | some f1, none =>
      have h : compare_face_regions (some f1) none = 3/10 := rfl
      rw [h]; constructor <;> norm_num
  | none, b =>
      have h : compare_face_regions none b = 3/10 := rfl
      rw [h]; constructor <;> norm_num

/-- Computation rule of `basic_image_comparison` when every primitive
succeeds. -/
theorem basic_image_comparison_eq {Img : Type} (cv : CV Img) (a b : Img)
    (r1 r2 g1 g2 : Img)
    (h1 : cv.resize100 a = .ok r1) (h2 : cv.resize100 b = .ok r2)
    (h3 : cv.cvtColorGray r1 = .ok g1) (h4 : cv.cvtColorGray r2 = .ok g2) :
    basic_image_comparison cv a b =
      .ok (max 0 (min 1 (1 - meanAbsDiff1 (cv.pix1 g1) (cv.pix1 g2) / 255))) := by
  unfold basic_image_comparison
  rw [h1, h2]
  dsimp only
  rw [h3, h4]

/-- Inversion of a successful `basic_image_comparison`: both resizes and
both grayscale conversions succeeded and the score is the clamped
whole-frame pixel similarity. -/
theorem basic_image_comparison_ok_inv {Img : Type} (cv : CV Img) (a b : Img) (s : ℚ)
    (h : basic_image_comparison cv a b = .ok s) :
    ∃ r1 r2 g1 g2, cv.resize100 a = .ok r1 ∧ cv.resize100 b = .ok r2 ∧
      cv.cvtColorGray r1 = .ok g1 ∧ cv.cvtColorGray r2 = .ok g2 ∧
      s = max 0 (min 1 (1 - meanAbsDiff1 (cv.pix1 g1) (cv.pix1 g2) / 255)) := by
  unfold basic_image_comparison at h
  cases h1 : cv.resize100 a with
  | error e => rw [h1] at h; cases h
  | ok r1 =>
  rw [h1] at h
  dsimp only at h
  cases h2 : cv.resize100 b with
  | error e => rw [h2] at h; cases h
  | ok r2 =>
  rw [h2] at h
  dsimp only at h
  cases h3 : cv.cvtColorGray r1 with
  | error e => rw [h3] at h; cases h
  | ok g1 =>
  rw [h3] at h
  dsimp only at h
  cases h4 : cv.cvtColorGray r2 with
  | error e => rw [h4] at h; cases h
  | ok g2 =>
  rw [h4] at h
  dsimp only at h
  injection h with h
  exact ⟨r1, r2, g1, g2, rfl, rfl, h3, h4, h.symm⟩

/-- Computation rule of `fallback_branch` on a successful comparison. -/
theorem fallback_branch_eq {Img : Type} (cv : CV Img) (a b : Img) (s : ℚ)
    (h : basic_image_comparison cv a b = .ok s) :
    fallback_branch cv a b = .ok ⟨s, decide (s < 7/10), s, none⟩ := by
  unfold fallback_branch
  rw [h]

/-- Inversion of a successful `fallback_branch`. -/
theorem fallback_branch_ok_inv {Img : Type} (cv : CV Img) (a b : Img)
    (r : SimilarityResult) (h : fallback_branch cv a b = .ok r) :
    ∃ s, basic_image_comparison cv a b = .ok s ∧
      r = ⟨s, decide (s < 7/10), s, none⟩ := by
  unfold fallback_branch at h
  cases hs : basic_image_comparison cv a b with
  | error e => rw [hs] at h; cases h
  | ok s =>
  rw [hs] at h
  injection h with h
  exact ⟨s, rfl, h.symm⟩

/-- Computation rule of `extract_face_region` on a present region when
cropping and resizing succeed. -/
theorem extract_face_region_eq {Img : Type} (cv : CV Img) (image : Img)
    (f : Region) (c r : Img)
    (h1 : cv.crop image f = .ok c) (h2 : cv.resize100 c = .ok r) :
    extract_face_region cv image (some f) = .ok (some r) := by
  unfold extract_face_region
  dsimp only
  rw [h1]
  dsimp only
  rw [h2]

/-- Inversion of a successful `extract_face_region` on a present region. -/
theorem extract_face_region_some_ok_inv {Img : Type} (cv : CV Img) (image : Img)
    (f : Region) (o : Option Img)
    (h : extract_face_region cv image (some f) = .ok o) :
    ∃ c r, cv.crop image f = .ok c ∧ cv.resize100 c = .ok r ∧ o = some r := by
  unfold extract_face_region at h
  dsimp only at h
  cases h1 : cv.crop image f with
  | error e => rw [h1] at h; cases h
  | ok c =>
  rw [h1] at h
  dsimp only at h
  cases h2 : cv.resize100 c with
  | error e => rw [h2] at h; cases h
  | ok r =>
  rw [h2] at h
  dsimp only at h
  injection h with h
  exact ⟨c, r, rfl, h2, h.symm⟩

/-- Computation rule of `face_branch` when both region extractions
succeed. -/
theorem face_branch_eq {Img : Type} (cv : CV Img) (img1 img2 : Img)
    (faces1 faces2 : List Region) (o1 o2 : Option Img)
    (h1 : extract_face_region cv img1 (get_largest_face faces1) = .ok o1)
    (h2 : extract_face_region cv img2 (get_largest_face faces2) = .ok o2) :
    face_branch cv img1 img2 faces1 faces2 =
      .ok ⟨compare_face_regions (o1.map cv.pix3) (o2.map cv.pix3),
        decide (compare_face_regions (o1.map cv.pix3) (o2.map cv.pix3) < 6/10),
        compare_face_regions (o1.map cv.pix3) (o2.map cv.pix3), none⟩ := by
  unfold face_branch
  rw [h1]
  dsimp only
  rw [h2]

/-- Inversion of a successful `face_branch`. -/
theorem face_branch_ok_inv {Img : Type} (cv : CV Img) (img1 img2 : Img)
    (faces1 faces2 : List Region) (r : SimilarityResult)
    (h : face_branch cv img1 img2 faces1 faces2 = .ok r) :
    ∃ o1 o2, extract_face_region cv img1 (get_largest_face faces1) = .ok o1 ∧
      extract_face_region cv img2 (get_largest_face faces2) = .ok o2 ∧
      r = ⟨compare_face_regions (o1.map cv.pix3) (o2.map cv.pix3),
        decide (compare_face_regions (o1.map cv.pix3) (o2.map cv.pix3) < 6/10),
        compare_face_regions (o1.map cv.pix3) (o2.map cv.pix3), none⟩ := by
  unfold face_branch at h
  cases h1 : extract_face_region cv img1 (get_largest_face faces1) with
  | error e => rw [h1] at h; cases h
  | ok o1 =>
  rw [h1] at h
  dsimp only at h
  cases h2 : extract_face_region cv img2 (get_largest_face faces2) with
  | error e => rw [h2] at h; cases h
  | ok o2 =>
  rw [h2] at h
  dsimp only at h
  injection h with h
  exact ⟨o1, o2, rfl, rfl, h.symm⟩

/-- Once loading, conversion and detection have succeeded, `compare_faces`'s
`try` body reduces to the branch dispatch on the two face lists. -/
theorem compare_faces_try_eq_branch {Img : Type} (cv : CV Img) (img1 img2 : Img)
    (g1 g2 : Img) (faces1 faces2 : List Region)
    (h1 : cv.cvtColorGray img1 = .ok g1) (h2 : cv.cvtColorGray img2 = .ok g2)
    (h3 : cv.detectMultiScale g1 = .ok faces1) (h4 : cv.detectMultiScale g2 = .ok faces2) :
    compare_faces_try cv (some img1) (some img2) =
      if faces1.length = 0 ∨ faces2.length = 0 then fallback_branch cv img1 img2
      else face_branch cv img1 img2 faces1 faces2 := by
  show (match cv.cvtColorGray img1 with
    | .error e => Except.error e
    | .ok gray1 =>
      match cv.cvtColorGray img2 with
      | .error e => Except.error e
      | .ok gray2 =>
        match cv.detectMultiScale gray1 with
        | .error e => Except.error e
        | .ok faces1 =>
          match cv.detectMultiScale gray2 with
          | .error e => Except.error e
          | .ok faces2 =>
            if faces1.length = 0 ∨ faces2.length = 0 then
              fallback_branch cv img1 img2
            else
              face_branch cv img1 img2 faces1 faces2) = _
  rw [h1]
  dsimp only
  rw [h2]
  dsimp only
  rw [h3]
  dsimp only
  rw [h4]

/-- Whenever the `try` body returns normally, the returned result's
similarity is in [0, 1] and its confidence equals its similarity. -/
theorem compare_faces_try_ok_wellformed {Img : Type} (cv : CV Img)
    (image1 image2 : Option Img) (r : SimilarityResult)
    (h : compare_faces_try cv image1 image2 = .ok r) :
    (0 ≤ r.similarity ∧ r.similarity ≤ 1) ∧ r.confidence = r.similarity := by
  match image1, image2 with
  | none, _ =>
      unfold compare_faces_try at h
      cases h
      exact ⟨⟨by norm_num, by norm_num⟩, rfl⟩
  | some img1, none =>
      unfold compare_faces_try at h
      cases h
      exact ⟨⟨by norm_num, by norm_num⟩, rfl⟩
  | some img1, some img2 =>
      unfold compare_faces_try at h
      dsimp only at h
      cases h1 : cv.cvtColorGray img1 with
      | error e => rw [h1] at h; cases h
      | ok g1 =>
        rw [h1] at h
        dsimp only at h
        cases h2 : cv.cvtColorGray img2 with
        | error e => rw [h2] at h; cases h
        | ok g2 =>
          rw [h2] at h
          dsimp only at h
          cases h3 : cv.detectMultiScale g1 with
          | error e => rw [h3] at h; cases h
          | ok faces1 =>
            rw [h3] at h
            dsimp only at h
            cases h4 : cv.detectMultiScale g2 with
            | error e => rw [h4] at h; cases h
            | ok faces2 =>
              rw [h4] at h
              dsimp only at h
              by_cases hbr : faces1.length = 0 ∨ faces2.length = 0
              · rw [if_pos hbr] at h
                rcases fallback_branch_ok_inv cv img1 img2 r h with ⟨s, hs, rfl⟩
                rcases basic_image_comparison_ok_inv cv img1 img2 s hs with
                  ⟨_, _, _, _, _, _, _, _, rfl⟩
                exact ⟨⟨le_max_left 0 _, max_le (by norm_num) (min_le_left 1 _)⟩, rfl⟩
              · rw [if_neg hbr] at h
                rcases face_branch_ok_inv cv img1 img2 faces1 faces2 r h with
                  ⟨o1, o2, _, _, rfl⟩
                exact ⟨compare_face_regions_bounds _ _, rfl⟩

/-- Every call of `compare_faces` returns a result whose similarity is in
[0, 1] and whose confidence equals its similarity, on all four paths. -/
theorem compare_faces_wellformed {Img : Type} (cv : CV Img) (image1 image2 : Option Img) :
    (0 ≤ (compare_faces cv image1 image2).similarity ∧
      (compare_faces cv image1 image2).similarity ≤ 1) ∧
    (compare_faces cv image1 image2).confidence = (compare_faces cv image1 image2).similarity := by
  unfold compare_faces
  cases h : compare_faces_try cv image1 image2 with
  | error e => exact ⟨⟨by norm_num, by norm_num⟩, rfl⟩
  | ok r => exact compare_faces_try_ok_wellformed cv image1 image2 r h

/-- C1: on every branch of `compare_faces` (face-present mode, fallback
mode, load failure, internal fault) the returned similarity lies in [0, 1]
and the confidence field equals the similarity field. -/
theorem C1_similarity_bounds_and_confidence {Img : Type} (cv : CV Img)
    (image1 image2 : Option Img) :
    0 ≤ (compare_faces cv image1 image2).similarity ∧
    (compare_faces cv image1 image2).similarity ≤ 1 ∧
    (compare_faces cv image1 image2).confidence = (compare_faces cv image1 image2).similarity :=
  ⟨(compare_faces_wellformed cv image1 image2).1.1,
    (compare_faces_wellformed cv image1 image2).1.2,
    (compare_faces_wellformed cv image1 image2).2⟩

/-- C2: if either input image fails to load (`cv2.imread` returned `None`),
`compare_faces` returns normally (no exception) with exactly
`{similarity: 0.3, person_change: True, confidence: 0.3}` and the non-empty
error string `"Failed to load images"`. -/
theorem C2_unreadable_image_result {Img : Type} (cv : CV Img) :
    (∀ image2 : Option Img,
      compare_faces cv none image2 =
        ⟨3/10, true, 3/10, some "Failed to load images"⟩) ∧
    (∀ image1 : Option Img,
      compare_faces cv image1 none =
        ⟨3/10, true, 3/10, some "Failed to load images"⟩) ∧
    "Failed to load images" ≠ "" := by
  refine ⟨fun image2 => rfl, fun image1 => ?_, by decide⟩
  cases image1 <;> rfl

/-- Witness for C2: a concrete call with a failed left load. -/
theorem C2_unreadable_image_result_witness :
    compare_faces cvUnit none (some ()) =
      ⟨3/10, true, 3/10, some "Failed to load images"⟩ ∧
    "Failed to load images" ≠ "" := by
  constructor
  · exact (C2_unreadable_image_result cvUnit).1 (some ())
  · exact (C2_unreadable_image_result cvUnit).2.2

/-- C3: any exception raised inside the detection/scoring path (an `.error`
value of the `try` body) is caught and yields exactly
`{similarity: 0.5, person_change: False, confidence: 0.5}` with the error
field populated; and every call of `compare_faces` returns a well-formed
`SimilarityResult` (similarity in [0, 1], confidence equal to it) rather
than letting the exception escape. -/
theorem C3_internal_fault_neutral_result {Img : Type} (cv : CV Img)
    (image1 image2 : Option Img) :
    (∀ e : String, compare_faces_try cv image1 image2 = .error e →
      compare_faces cv image1 image2 = ⟨1/2, false, 1/2, some e⟩ ∧
      (compare_faces cv image1 image2).error ≠ none) ∧
    (0 ≤ (compare_faces cv image1 image2).similarity ∧
      (compare_faces cv image1 image2).similarity ≤ 1 ∧
      (compare_faces cv image1 image2).confidence =
        (compare_faces cv image1 image2).similarity) := by
  constructor
  · intro e he
    have hc : compare_faces cv image1 image2 = ⟨1/2, false, 1/2, some e⟩ := by
      unfold compare_faces
      rw [he]
    refine ⟨hc, ?_⟩
    rw [hc]
    simp
  · exact ⟨(compare_faces_wellformed cv image1 image2).1.1,
      (compare_faces_wellformed cv image1 image2).1.2,
      (compare_faces_wellformed cv image1 image2).2⟩


/-- Witness for C3: with a raising backend, `compare_faces` returns the
neutral degraded result carrying the exception text. -/
theorem C3_internal_fault_neutral_result_witness :
    compare_faces cvBoom (some ()) (some ()) = ⟨1/2, false, 1/2, some "boom"⟩ ∧
    (compare_faces cvBoom (some ()) (some ())).error ≠ none :=
  (C3_internal_fault_neutral_result cvBoom (some ()) (some ())).1 "boom" rfl

/-- C4: once both images are readable and converted and detection has run,
the face branch is taken precisely when both images yielded at least one
detected face (otherwise the fallback branch is taken); and a completed
face branch sets person_change exactly when the emitted combined similarity
is strictly below 0.6, so a score of exactly 0.6 gives person_change =
false. -/
theorem C4_mode_choice_and_threshold {Img : Type} (cv : CV Img)
    (img1 img2 g1 g2 : Img) (faces1 faces2 : List Region)
    (h1 : cv.cvtColorGray img1 = .ok g1) (h2 : cv.cvtColorGray img2 = .ok g2)
    (h3 : cv.detectMultiScale g1 = .ok faces1)
    (h4 : cv.detectMultiScale g2 = .ok faces2) :
    (faces1 ≠ [] ∧ faces2 ≠ [] →
      compare_faces_try cv (some img1) (some img2) =
        face_branch cv img1 img2 faces1 faces2) ∧
    (faces1 = [] ∨ faces2 = [] →
      compare_faces_try cv (some img1) (some img2) =
        fallback_branch cv img1 img2) ∧
    (∀ r : SimilarityResult, face_branch cv img1 img2 faces1 faces2 = .ok r →
      (r.person_change = true ↔ r.similarity < 6/10) ∧
      (r.similarity = 6/10 → r.person_change = false)) := by
  rw [compare_faces_try_eq_branch cv img1 img2 g1 g2 faces1 faces2 h1 h2 h3 h4]
  refine ⟨?_, ?_, ?_⟩
  · rintro ⟨hne1, hne2⟩
    rw [if_neg]
    push_neg
    exact ⟨fun hl => hne1 (List.length_eq_zero.mp hl),
      fun hl => hne2 (List.length_eq_zero.mp hl)⟩
  · intro hempty
    rw [if_pos]
    rcases hempty with h | h <;> simp [h]
  · intro r hr
    rcases face_branch_ok_inv cv img1 img2 faces1 faces2 r hr with ⟨o1, o2, _, _, rfl⟩
    constructor
    · exact decide_eq_true_iff
    · intro hs
      have hx : compare_face_regions (Option.map cv.pix3 o1) (Option.map cv.pix3 o2)
          = 6/10 := hs
      exact decide_eq_false (by rw [hx]; norm_num)



/-- Witness for C4 on the trivial backend. -/
theorem C4_mode_choice_and_threshold_witness :
    cvUnit.detectMultiScale () = .ok facesW ∧
    ((facesW ≠ [] ∧ facesW ≠ [] →
      compare_faces_try cvUnit (some ()) (some ()) =
        face_branch cvUnit () () facesW facesW) ∧
    (facesW = [] ∨ facesW = [] →
      compare_faces_try cvUnit (some ()) (some ()) =
        fallback_branch cvUnit () ()) ∧
    (∀ r : SimilarityResult, face_branch cvUnit () () facesW facesW = .ok r →
      (r.person_change = true ↔ r.similarity < 6/10) ∧
      (r.similarity = 6/10 → r.person_change = false))) :=
  ⟨rfl, C4_mode_choice_and_threshold cvUnit () () () () facesW facesW rfl rfl rfl rfl⟩

/-- C5: in fallback mode (either image without a detected face) the result
is exactly the clamped whole-frame similarity
`1 - mean(|gray1 - gray2|)/255` over the two full images resized to 100×100
and converted to grayscale, person_change holds exactly when that
similarity is strictly below 0.7, and no error field is set. -/
theorem C5_fallback_formula {Img : Type} (cv : CV Img)
    (img1 img2 g1 g2 : Img) (faces1 faces2 : List Region) (r1 r2 gg1 gg2 : Img)
    (h1 : cv.cvtColorGray img1 = .ok g1) (h2 : cv.cvtColorGray img2 = .ok g2)
    (h3 : cv.detectMultiScale g1 = .ok faces1)
    (h4 : cv.detectMultiScale g2 = .ok faces2)
    (hno : faces1 = [] ∨ faces2 = [])
    (h5 : cv.resize100 img1 = .ok r1) (h6 : cv.resize100 img2 = .ok r2)
    (h7 : cv.cvtColorGray r1 = .ok gg1) (h8 : cv.cvtColorGray r2 = .ok gg2) :
    compare_faces cv (some img1) (some img2) =
      ⟨max 0 (min 1 (1 - meanAbsDiff1 (cv.pix1 gg1) (cv.pix1 gg2) / 255)),
        decide (max 0 (min 1 (1 - meanAbsDiff1 (cv.pix1 gg1) (cv.pix1 gg2) / 255)) < 7/10),
        max 0 (min 1 (1 - meanAbsDiff1 (cv.pix1 gg1) (cv.pix1 gg2) / 255)), none⟩ ∧
    ((compare_faces cv (some img1) (some img2)).person_change = true ↔
      (compare_faces cv (some img1) (some img2)).similarity < 7/10) ∧
    (compare_faces cv (some img1) (some img2)).error = none := by
  have hbasic := basic_image_comparison_eq cv img1 img2 r1 r2 gg1 gg2 h5 h6 h7 h8
  have hfall := fallback_branch_eq cv img1 img2 _ hbasic
  have htry : compare_faces_try cv (some img1) (some img2) =
      fallback_branch cv img1 img2 := by
    rw [compare_faces_try_eq_branch cv img1 img2 g1 g2 faces1 faces2 h1 h2 h3 h4]
    rw [if_pos]
    rcases hno with h | h <;> simp [h]
  have hcf : compare_faces cv (some img1) (some img2) =
      ⟨max 0 (min 1 (1 - meanAbsDiff1 (cv.pix1 gg1) (cv.pix1 gg2) / 255)),
        decide (max 0 (min 1 (1 - meanAbsDiff1 (cv.pix1 gg1) (cv.pix1 gg2) / 255)) < 7/10),
        max 0 (min 1 (1 - meanAbsDiff1 (cv.pix1 gg1) (cv.pix1 gg2) / 255)), none⟩ := by
    unfold compare_faces
    rw [htry, hfall]
  refine ⟨hcf, ?_, ?_⟩
  · rw [hcf]
    exact decide_eq_true_iff
  · rw [hcf]


/-- Witness for C5 on the no-face backend. -/
theorem C5_fallback_formula_witness :
    cvNoFace.detectMultiScale () = .ok ([] : List Region) ∧
    (compare_faces cvNoFace (some ()) (some ()) =
      ⟨max 0 (min 1 (1 - meanAbsDiff1 (cvNoFace.pix1 ()) (cvNoFace.pix1 ()) / 255)),
        decide (max 0 (min 1 (1 - meanAbsDiff1 (cvNoFace.pix1 ()) (cvNoFace.pix1 ()) / 255)) < 7/10),
        max 0 (min 1 (1 - meanAbsDiff1 (cvNoFace.pix1 ()) (cvNoFace.pix1 ()) / 255)), none⟩ ∧
    ((compare_faces cvNoFace (some ()) (some ())).person_change = true ↔
      (compare_faces cvNoFace (some ()) (some ())).similarity < 7/10) ∧
    (compare_faces cvNoFace (some ()) (some ())).error = none) :=
  ⟨rfl, C5_fallback_formula cvNoFace () () () () [] [] () () () ()
    rfl rfl rfl rfl (Or.inl rfl) rfl rfl rfl rfl⟩

/-- The function `get_largest_face` only returns a face on a non-empty list. -/
theorem get_largest_face_some_ne_nil (faces : List Region) (f : Region)
    (h : get_largest_face faces = some f) : faces.length ≠ 0 := by
  intro hlen
  unfold get_largest_face at h
  rw [if_pos hlen] at h
  cases h

/-- C6: in face-present mode each selected region is cropped from its image
and the crop resized by the 100×100 resize primitive, and the emitted
similarity is `clamp(0.6·hist_similarity + 0.4·pixel_similarity, 0, 1)`
over the two resulting patches, with
`pixel_similarity = 1 - mean(|patch1 - patch2|)/255`. -/
theorem C6_face_mode_formula {Img : Type} (cv : CV Img)
    (img1 img2 g1 g2 : Img) (faces1 faces2 : List Region) (f1 f2 : Region)
    (c1 c2 p1 p2 : Img)
    (h1 : cv.cvtColorGray img1 = .ok g1) (h2 : cv.cvtColorGray img2 = .ok g2)
    (h3 : cv.detectMultiScale g1 = .ok faces1)
    (h4 : cv.detectMultiScale g2 = .ok faces2)
    (hf1 : get_largest_face faces1 = some f1)
    (hf2 : get_largest_face faces2 = some f2)
    (hc1 : cv.crop img1 f1 = .ok c1) (hr1 : cv.resize100 c1 = .ok p1)
    (hc2 : cv.crop img2 f2 = .ok c2) (hr2 : cv.resize100 c2 = .ok p2) :
    (compare_faces cv (some img1) (some img2)).similarity =
      max 0 (min 1 ((6:ℚ)/10 * hist_similarity (cv.pix3 p1) (cv.pix3 p2)
        + (4:ℚ)/10 * (1 - meanAbsDiff3 (cv.pix3 p1) (cv.pix3 p2) / 255))) := by
  have hb1 : extract_face_region cv img1 (get_largest_face faces1) = .ok (some p1) := by
    rw [hf1]
    exact extract_face_region_eq cv img1 f1 c1 p1 hc1 hr1
  have hb2 : extract_face_region cv img2 (get_largest_face faces2) = .ok (some p2) := by
    rw [hf2]
    exact extract_face_region_eq cv img2 f2 c2 p2 hc2 hr2
  have hface := face_branch_eq cv img1 img2 faces1 faces2 (some p1) (some p2) hb1 hb2
  have htry : compare_faces_try cv (some img1) (some img2) =
      face_branch cv img1 img2 faces1 faces2 := by
    rw [compare_faces_try_eq_branch cv img1 img2 g1 g2 faces1 faces2 h1 h2 h3 h4]
    rw [if_neg]
    push_neg
    exact ⟨get_largest_face_some_ne_nil faces1 f1 hf1,
      get_largest_face_some_ne_nil faces2 f2 hf2⟩
  have hcf : compare_faces cv (some img1) (some img2) =
      ⟨compare_face_regions (Option.map cv.pix3 (some p1)) (Option.map cv.pix3 (some p2)),
        decide (compare_face_regions (Option.map cv.pix3 (some p1))
          (Option.map cv.pix3 (some p2)) < 6/10),
        compare_face_regions (Option.map cv.pix3 (some p1))
          (Option.map cv.pix3 (some p2)), none⟩ := by
    unfold compare_faces
    rw [htry, hface]
  rw [hcf]
  show compare_face_regions (some (cv.pix3 p1)) (some (cv.pix3 p2)) = _
  show max 0 (min 1 (hist_similarity (cv.pix3 p1) (cv.pix3 p2) * (6/10)
    + pixel_similarity (cv.pix3 p1) (cv.pix3 p2) * (4/10))) = _
  congr 2
  unfold pixel_similarity
  ring

/-- Witness for C6 on the trivial backend. -/
theorem C6_face_mode_formula_witness :
    get_largest_face facesW = some ⟨0, 0, 1, 1⟩ ∧
    (compare_faces cvUnit (some ()) (some ())).similarity =
      max 0 (min 1 ((6:ℚ)/10 * hist_similarity (cvUnit.pix3 ()) (cvUnit.pix3 ())
        + (4:ℚ)/10 * (1 - meanAbsDiff3 (cvUnit.pix3 ()) (cvUnit.pix3 ()) / 255))) :=
  ⟨rfl, C6_face_mode_formula cvUnit () () () () facesW facesW
    ⟨0, 0, 1, 1⟩ ⟨0, 0, 1, 1⟩ () () () ()
    rfl rfl rfl rfl rfl rfl rfl rfl rfl rfl⟩




/-- The mean-deviation form of the correlation numerator agrees with
OpenCV's accumulation form. -/
theorem specCov_eq (a b : Fin 256 → ℚ) :
    specCov a b = (∑ i, a i * b i) - (∑ i, a i) * (∑ i, b i) / 256 := by
  have hstep : ∀ i : Fin 256, (a i - specMean a) * (b i - specMean b)
      = a i * b i - specMean a * b i - specMean b * a i
        + specMean a * specMean b := by
    intro i; ring
  calc specCov a b
      = ∑ i, (a i * b i - specMean a * b i - specMean b * a i
          + specMean a * specMean b) := Finset.sum_congr rfl (fun i _ => hstep i)
    _ = (∑ i, a i * b i) - specMean a * (∑ i, b i) - specMean b * (∑ i, a i)
          + 256 * (specMean a * specMean b) := by
        simp only [Finset.sum_add_distrib, Finset.sum_sub_distrib,
          ← Finset.mul_sum, Finset.sum_const, Finset.card_univ, Fintype.card_fin,
          nsmul_eq_mul]
        ring
    _ = (∑ i, a i * b i) - (∑ i, a i) * (∑ i, b i) / 256 := by
        unfold specMean
        ring

/-- OpenCV's accumulation form of `HISTCMP_CORREL` computes exactly the
textbook correlation coefficient. -/
theorem histCorrel_eq_specCorrel (a b : Fin 256 → ℚ) :
    histCorrel a b = specCorrel a b := by
  simp only [histCorrel, specCorrel]
  rw [specCov_eq a b, specCov_eq a a, specCov_eq b b]

/-- C8: the `hist_similarity` used in face-present mode is the correlation
coefficient between the two patches' single-channel (channel 0) intensity
histograms with 256 bins, each histogram independently min-max normalised
before the correlation is taken. -/
theorem C8_hist_similarity_is_correlation (face1 face2 : List Pix3) :
    hist_similarity face1 face2 =
      specCorrel (normMinMax (calcHist256 (chan0 face1)))
        (normMinMax (calcHist256 (chan0 face2))) := by
  unfold hist_similarity
  rw [histCorrel_eq_specCorrel]

/-- Counting with a predicate in a constant list. -/
theorem countP_replicate {α : Type} (p : α → Bool) (a : α) (n : ℕ) :
    (List.replicate n a).countP p = if p a then n else 0 := by
  induction n with
  | zero => simp
  | succ n ih =>
      rw [List.replicate_succ, List.countP_cons, ih]
      by_cases h : p a <;> simp [h]


/-- The histogram of a constant channel is a spike of the channel's length
at the constant value. -/
theorem calcHist256_replicate (c n : ℕ) :
    calcHist256 (List.replicate n c) = spike c (n : ℚ) := by
  funext i
  unfold calcHist256 spike
  rw [countP_replicate]
  by_cases h : c = i.val
  · simp [h]
  · simp [h, Ne.symm h]

/-- Largest bin of a nonnegative spike. -/
theorem histMax_spike (c : ℕ) (v : ℚ) (hv : 0 ≤ v) (hc : c < 256) :
    histMax (spike c v) = v := by
  apply le_antisymm
  · apply Finset.sup'_le
    intro i _
    unfold spike
    split
    · exact le_refl v
    · exact hv
  · have hval : spike c v ⟨c, hc⟩ = v := by unfold spike; simp
    have h := Finset.le_sup' (spike c v) (Finset.mem_univ (⟨c, hc⟩ : Fin 256))
    rw [hval] at h
    exact h

/-- Smallest bin of a nonnegative spike (some other bin is empty). -/
theorem histMin_spike (c : ℕ) (v : ℚ) (hv : 0 ≤ v) :
    histMin (spike c v) = 0 := by
  apply le_antisymm
  · obtain ⟨i, hi⟩ : ∃ i : Fin 256, i.val ≠ c := by
      by_cases h : c = 0
      · exact ⟨⟨1, by norm_num⟩, by simp [h]⟩
      · exact ⟨⟨0, by norm_num⟩, fun e => h e.symm⟩
    have hval : spike c v i = 0 := by unfold spike; rw [if_neg hi]
    have h := Finset.inf'_le (spike c v) (Finset.mem_univ i)
    rw [hval] at h
    exact h
  · apply Finset.le_inf'
    intro i _
    unfold spike
    split
    · exact hv
    · exact le_refl 0

/-- Min-max normalisation turns a positive spike into a unit spike. -/
theorem normMinMax_spike (c n : ℕ) (hn : 0 < n) (hc : c < 256) :
    normMinMax (spike c (n : ℚ)) = spike c 1 := by
  have hn0 : ((n : ℚ)) ≠ 0 := Nat.cast_ne_zero.mpr hn.ne'
  have hmax := histMax_spike c (n : ℚ) (by positivity) hc
  have hmin := histMin_spike c (n : ℚ) (by positivity)
  funext i
  unfold normMinMax
  simp only [hmax, hmin, sub_zero]
  rw [if_neg hn0]
  unfold spike
  split
  · exact div_self hn0
  · exact zero_div _

/-- Sum of a unit spike. -/
theorem sum_spike_one (c : ℕ) (hc : c < 256) : (∑ i, spike c (1:ℚ) i) = 1 := by
  have hrw : ∀ i : Fin 256, spike c (1:ℚ) i = if i = ⟨c, hc⟩ then 1 else 0 := by
    intro i
    unfold spike
    rcases eq_or_ne i ⟨c, hc⟩ with h | h
    · simp [h]
    · rw [if_neg, if_neg h]
      exact fun hv => h (Fin.ext hv)
  rw [Finset.sum_congr rfl (fun i _ => hrw i), Finset.sum_ite_eq']
  simp

/-- Sum of the square of a unit spike. -/
theorem sum_spike_one_sq (c : ℕ) (hc : c < 256) :
    (∑ i, spike c (1:ℚ) i * spike c 1 i) = 1 := by
  have hsq : ∀ i : Fin 256, spike c (1:ℚ) i * spike c 1 i = spike c 1 i := by
    intro i
    unfold spike
    split <;> simp
  rw [Finset.sum_congr rfl (fun i _ => hsq i)]
  exact sum_spike_one c hc

/-- OpenCV correlation of a unit spike with itself is 1 (the variance is
positive, so the main division path is taken and gives exactly 1). -/
theorem histCorrel_spike_self (c : ℕ) (hc : c < 256) :
    histCorrel (spike c 1) (spike c 1) = 1 := by
  simp only [histCorrel]
  rw [sum_spike_one c hc, sum_spike_one_sq c hc]
  have hX : (1 - 1 * 1 / 256 : ℚ) = 255/256 := by norm_num
  rw [hX]
  rw [if_neg (by norm_num)]
  rw [Rat.sqrt_eq, abs_of_pos (by norm_num)]
  norm_num





/-- Guarded min-max normalisation of a positive spike succeeds and yields
the unit spike. -/
theorem normMinMaxChecked_spike (c n : ℕ) (hn : 0 < n) (hc : c < 256) :
    normMinMaxChecked (spike c (n : ℚ)) = some (spike c 1) := by
  have hn0 : ((n : ℚ)) ≠ 0 := Nat.cast_ne_zero.mpr hn.ne'
  have hmax := histMax_spike c (n : ℚ) (by positivity) hc
  have hmin := histMin_spike c (n : ℚ) (by positivity)
  unfold normMinMaxChecked
  simp only [hmax, hmin, sub_zero]
  rw [if_neg hn0]
  unfold guardedDiv
  rw [if_neg hn0]
  simp only [Option.map_some']
  refine congrArg some (funext fun i => ?_)
  unfold spike
  split
  · rw [one_div, mul_inv_cancel₀ hn0]
  · rw [zero_mul]

/-- Guarded correlation of a unit spike with itself succeeds and yields
1. -/
theorem histCorrelChecked_spike_self (c : ℕ) (hc : c < 256) :
    histCorrelChecked (spike c 1) (spike c 1) = some 1 := by
  simp only [histCorrelChecked]
  rw [sum_spike_one c hc, sum_spike_one_sq c hc]
  have hX : (1 - 1 * 1 / 256 : ℚ) = 255/256 := by norm_num
  rw [hX]
  rw [if_neg (by norm_num)]
  unfold guardedDiv
  rw [Rat.sqrt_eq, abs_of_pos (by norm_num)]
  rw [if_neg (by norm_num)]
  norm_num

/-- Applying `cv2.absdiff` to a buffer and itself sums to zero. -/
theorem absdiff3_self_sum (p : List Pix3) : (absdiff3 p p).sum = 0 := by
  induction p with
  | nil => rfl
  | cons x t ih =>
      unfold absdiff3 at *
      rw [List.zipWith_cons_cons, List.sum_cons, ih]
      unfold absdiff
      simp

/-- C9: comparing two identical flat-colour patches (e.g. two all-black
100×100 patches) runs the histogram normalisation and correlation path
with no division fault — the fully guarded pipeline returns a value — and
the value is defined: the histogram similarity is 1 and
`compare_face_regions` returns 1. -/
theorem C9_flat_patch_no_division_fault (n : ℕ) (v : Pix3)
    (hn : 0 < n) (hv : v.1 < 256) :
    histSimilarityChecked (List.replicate n v) (List.replicate n v) = some 1 ∧
    hist_similarity (List.replicate n v) (List.replicate n v) = 1 ∧
    compare_face_regions (some (List.replicate n v))
      (some (List.replicate n v)) = 1 := by
  have hchan : chan0 (List.replicate n v) = List.replicate n v.1 := by
    unfold chan0
    rw [List.map_replicate]
  have hhist : calcHist256 (chan0 (List.replicate n v)) = spike v.1 (n : ℚ) := by
    rw [hchan, calcHist256_replicate]
  have hsim : hist_similarity (List.replicate n v) (List.replicate n v) = 1 := by
    unfold hist_similarity
    rw [hhist, normMinMax_spike v.1 n hn hv, histCorrel_spike_self v.1 hv]
  have hpix : pixel_similarity (List.replicate n v) (List.replicate n v) = 1 := by
    unfold pixel_similarity meanAbsDiff3
    rw [absdiff3_self_sum]
    norm_num
  refine ⟨?_, hsim, ?_⟩
  · unfold histSimilarityChecked
    simp only [hhist, normMinMaxChecked_spike v.1 n hn hv, Option.some_bind']
    exact histCorrelChecked_spike_self v.1 hv
  · show max 0 (min 1 (hist_similarity (List.replicate n v) (List.replicate n v) * (6/10)
      + pixel_similarity (List.replicate n v) (List.replicate n v) * (4/10))) = 1
    rw [hsim, hpix]
    norm_num

/-- Witness for C9: two all-black 100×100 patches (10000 pixels). -/
theorem C9_flat_patch_no_division_fault_witness :
    0 < 10000 ∧ (0, 0, 0).1 < 256 ∧
    (histSimilarityChecked (List.replicate 10000 ((0, 0, 0) : Pix3))
        (List.replicate 10000 ((0, 0, 0) : Pix3)) = some 1 ∧
      hist_similarity (List.replicate 10000 ((0, 0, 0) : Pix3))
        (List.replicate 10000 ((0, 0, 0) : Pix3)) = 1 ∧
      compare_face_regions (some (List.replicate 10000 ((0, 0, 0) : Pix3)))
        (some (List.replicate 10000 ((0, 0, 0) : Pix3))) = 1) :=
  ⟨by norm_num, by norm_num,
    C9_flat_patch_no_division_fault 10000 (0, 0, 0) (by norm_num) (by norm_num)⟩

/-- Invariant of the `get_largest_face` scan: either no candidate's area
strictly beats the initial best area and the accumulator survives
unchanged, or the scan returns the first candidate of maximal area, whose
area strictly beats the initial best. -/
theorem foldl_largestStep_spec (l : List Region) (A : ℕ) (b : Option Region) :
    (l.foldl largestStep (A, b) = (A, b) ∧ ∀ f ∈ l, f.area ≤ A) ∨
    (∃ (n : ℕ) (h : n < l.length),
      l.foldl largestStep (A, b) = ((l.get ⟨n, h⟩).area, some (l.get ⟨n, h⟩)) ∧
      A < (l.get ⟨n, h⟩).area ∧
      (∀ (m : ℕ) (hm : m < l.length), (l.get ⟨m, hm⟩).area ≤ (l.get ⟨n, h⟩).area) ∧
      (∀ (m : ℕ) (hm : m < l.length), m < n →
        (l.get ⟨m, hm⟩).area < (l.get ⟨n, h⟩).area)) := by
  induction l generalizing A b with
  | nil => exact Or.inl ⟨rfl, by simp⟩
  | cons x t ih =>
      rw [List.foldl_cons]
      have hstep : largestStep (A, b) x =
          if x.area > A then (x.area, some x) else (A, b) := rfl
      by_cases hx : x.area > A
      · rw [hstep, if_pos hx]
        rcases ih x.area (some x) with ⟨heq, hall⟩ | ⟨n, h, heq, hA, hmax, hfirst⟩
        · refine Or.inr ⟨0, by simp, heq, hx, ?_, ?_⟩
          · intro m hm
            match m, hm with
            | 0, _ => exact le_refl _
            | m'+1, hm =>
                exact hall (t.get ⟨m', by simpa [Nat.succ_lt_succ_iff] using hm⟩)
                  (List.get_mem t _ _)
          · intro m hm hm0
            omega
        · refine Or.inr ⟨n+1, by simp only [List.length_cons]; omega, heq,
            lt_trans hx hA, ?_, ?_⟩
          · intro m hm
            match m, hm with
            | 0, _ => exact le_of_lt hA
            | m'+1, hm => exact hmax m' (by simpa [Nat.succ_lt_succ_iff] using hm)
          · intro m hm hmn
            match m, hm with
            | 0, _ => exact hA
            | m'+1, hm =>
                exact hfirst m' (by simpa [Nat.succ_lt_succ_iff] using hm) (by omega)
      · rw [hstep, if_neg hx]
        have hxA : x.area ≤ A := not_lt.mp hx
        rcases ih A b with ⟨heq, hall⟩ | ⟨n, h, heq, hA, hmax, hfirst⟩
        · refine Or.inl ⟨heq, ?_⟩
          intro f hf
          rcases List.mem_cons.mp hf with rfl | hf
          · exact hxA
          · exact hall f hf
        · refine Or.inr ⟨n+1, by simp only [List.length_cons]; omega, heq, hA, ?_, ?_⟩
          · intro m hm
            match m, hm with
            | 0, _ => exact le_of_lt (lt_of_le_of_lt hxA hA)
            | m'+1, hm => exact hmax m' (by simpa [Nat.succ_lt_succ_iff] using hm)
          · intro m hm hmn
            match m, hm with
            | 0, _ => exact lt_of_le_of_lt hxA hA
            | m'+1, hm =>
                exact hfirst m' (by simpa [Nat.succ_lt_succ_iff] using hm) (by omega)

/-- C7: on a non-empty list of detected regions, all of positive area as
produced by the detector, `get_largest_face` returns the first region of
maximal `w * h`; it selects (5,5,20,20) from the documented two-region
example; and it returns `none` (absence, not an error) on the empty
list. -/
theorem C7_get_largest_face_spec :
    (∀ faces : List Region, faces ≠ [] → (∀ r ∈ faces, 0 < r.area) →
      ∃ (n : ℕ) (h : n < faces.length),
        get_largest_face faces = some (faces.get ⟨n, h⟩) ∧
        (∀ (m : ℕ) (hm : m < faces.length),
          (faces.get ⟨m, hm⟩).area ≤ (faces.get ⟨n, h⟩).area) ∧
        (∀ (m : ℕ) (hm : m < faces.length), m < n →
          (faces.get ⟨m, hm⟩).area < (faces.get ⟨n, h⟩).area)) ∧
    get_largest_face [⟨0, 0, 10, 10⟩, ⟨5, 5, 20, 20⟩] = some ⟨5, 5, 20, 20⟩ ∧
    get_largest_face [] = none := by
  refine ⟨?_, by decide, rfl⟩
  intro faces hne hpos
  rcases foldl_largestStep_spec faces 0 none with ⟨heq, hall⟩ |
    ⟨n, h, heq, _, hmax, hfirst⟩
  · exfalso
    rcases faces with _ | ⟨x, t⟩
    · exact hne rfl
    · have h1 := hall x (by simp)
      have h2 := hpos x (by simp)
      omega
  · refine ⟨n, h, ?_, hmax, hfirst⟩
    unfold get_largest_face
    rw [if_neg fun hl => hne (List.length_eq_zero.mp hl), heq]

/-- Witness for C7 on the documented two-region example. -/
theorem C7_get_largest_face_spec_witness :
    ([(⟨0, 0, 10, 10⟩ : Region), ⟨5, 5, 20, 20⟩] ≠ [] ∧
      ∀ r ∈ [(⟨0, 0, 10, 10⟩ : Region), ⟨5, 5, 20, 20⟩], 0 < r.area) ∧
    ∃ (n : ℕ) (h : n < [(⟨0, 0, 10, 10⟩ : Region), ⟨5, 5, 20, 20⟩].length),
      get_largest_face [⟨0, 0, 10, 10⟩, ⟨5, 5, 20, 20⟩] =
        some ([(⟨0, 0, 10, 10⟩ : Region), ⟨5, 5, 20, 20⟩].get ⟨n, h⟩) ∧
      (∀ (m : ℕ) (hm : m < [(⟨0, 0, 10, 10⟩ : Region), ⟨5, 5, 20, 20⟩].length),
        ([(⟨0, 0, 10, 10⟩ : Region), ⟨5, 5, 20, 20⟩].get ⟨m, hm⟩).area ≤
          ([(⟨0, 0, 10, 10⟩ : Region), ⟨5, 5, 20, 20⟩].get ⟨n, h⟩).area) ∧
      (∀ (m : ℕ) (hm : m < [(⟨0, 0, 10, 10⟩ : Region), ⟨5, 5, 20, 20⟩].length),
        m < n →
        ([(⟨0, 0, 10, 10⟩ : Region), ⟨5, 5, 20, 20⟩].get ⟨m, hm⟩).area <
          ([(⟨0, 0, 10, 10⟩ : Region), ⟨5, 5, 20, 20⟩].get ⟨n, h⟩).area) :=
  ⟨⟨by decide, by decide⟩,
    C7_get_largest_face_spec.1 [⟨0, 0, 10, 10⟩, ⟨5, 5, 20, 20⟩]
      (by decide) (by decide)⟩

/-- Symmetry of `cv2.absdiff` per element. -/
theorem absdiff_comm (a b : ℕ) : absdiff a b = absdiff b a := by
  unfold absdiff
  rw [max_comm, min_comm]

/-- Grayscale difference buffers are symmetric. -/
theorem absdiff1_comm (p q : List Pix) : absdiff1 p q = absdiff1 q p :=
  List.zipWith_comm_of_comm absdiff absdiff_comm p q

/-- Grayscale mean absolute difference is symmetric. -/
theorem meanAbsDiff1_comm (p q : List Pix) : meanAbsDiff1 p q = meanAbsDiff1 q p := by
  unfold meanAbsDiff1
  rw [absdiff1_comm]

/-- Colour difference buffers are symmetric. -/
theorem absdiff3_comm (p q : List Pix3) : absdiff3 p q = absdiff3 q p :=
  List.zipWith_comm_of_comm _
    (fun u v => by
      show absdiff u.1 v.1 + absdiff u.2.1 v.2.1 + absdiff u.2.2 v.2.2
        = absdiff v.1 u.1 + absdiff v.2.1 u.2.1 + absdiff v.2.2 u.2.2
      rw [absdiff_comm u.1 v.1, absdiff_comm u.2.1 v.2.1, absdiff_comm u.2.2 v.2.2])
    p q

/-- Colour mean absolute difference is symmetric. -/
theorem meanAbsDiff3_comm (p q : List Pix3) : meanAbsDiff3 p q = meanAbsDiff3 q p := by
  unfold meanAbsDiff3
  rw [absdiff3_comm]

/-- The function `pixel_similarity` is symmetric. -/
theorem pixel_similarity_comm (p q : List Pix3) :
    pixel_similarity p q = pixel_similarity q p := by
  unfold pixel_similarity
  rw [meanAbsDiff3_comm]

/-- The correlation numerator is symmetric. -/
theorem specCov_comm (a b : Fin 256 → ℚ) : specCov a b = specCov b a := by
  unfold specCov
  exact Finset.sum_congr rfl fun i _ => mul_comm _ _

/-- The textbook correlation coefficient is symmetric. -/
theorem specCorrel_comm (a b : Fin 256 → ℚ) : specCorrel a b = specCorrel b a := by
  simp only [specCorrel]
  rw [specCov_comm a b, mul_comm (specCov a a) (specCov b b)]

/-- OpenCV's histogram correlation is symmetric. -/
theorem histCorrel_comm (a b : Fin 256 → ℚ) : histCorrel a b = histCorrel b a := by
  rw [histCorrel_eq_specCorrel, histCorrel_eq_specCorrel, specCorrel_comm]

/-- The function `hist_similarity` is symmetric. -/
theorem hist_similarity_comm (p q : List Pix3) :
    hist_similarity p q = hist_similarity q p := by
  unfold hist_similarity
  rw [histCorrel_comm]

/-- The function `compare_face_regions` is symmetric in its two patches. -/
theorem compare_face_regions_comm (a b : Option (List Pix3)) :
    compare_face_regions a b = compare_face_regions b a := by
  match a, b with
  | some f1, some f2 =>
      show max 0 (min 1 (hist_similarity f1 f2 * (6/10)
          + pixel_similarity f1 f2 * (4/10)))
        = max 0 (min 1 (hist_similarity f2 f1 * (6/10)
          + pixel_similarity f2 f1 * (4/10)))
      rw [hist_similarity_comm, pixel_similarity_comm]
  | some f1, none => rfl
  | none, some f2 => rfl
  | none, none => rfl

/-- A successful whole-frame comparison is unchanged by swapping the
images. -/
theorem basic_image_comparison_swap_ok {Img : Type} (cv : CV Img) (a b : Img)
    (s : ℚ) (h : basic_image_comparison cv a b = .ok s) :
    basic_image_comparison cv b a = .ok s := by
  rcases basic_image_comparison_ok_inv cv a b s h with
    ⟨r1, r2, g1, g2, h1, h2, h3, h4, rfl⟩
  rw [basic_image_comparison_eq cv b a r2 r1 g2 g1 h2 h1 h4 h3]
  rw [meanAbsDiff1_comm (cv.pix1 g2) (cv.pix1 g1)]

/-- C10: both similarity metrics are symmetric in their arguments —
`compare_face_regions` is unchanged by swapping the patches, and a
`basic_image_comparison` that returns a score returns the same score with
the images swapped — so swapping the two inputs cannot change the emitted
similarity when the detection outcomes are unchanged. -/
theorem C10_similarity_symmetry {Img : Type} (cv : CV Img) :
    (∀ a b : Option (List Pix3),
      compare_face_regions a b = compare_face_regions b a) ∧
    (∀ (a b : Img) (s : ℚ), basic_image_comparison cv a b = .ok s →
      basic_image_comparison cv b a = .ok s) :=
  ⟨compare_face_regions_comm,
    fun a b s h => basic_image_comparison_swap_ok cv a b s h⟩

/-- Witness for C10 on the trivial backend. -/
theorem C10_similarity_symmetry_witness :
    compare_face_regions (some []) none = compare_face_regions none (some []) ∧
    basic_image_comparison cvUnit () () = .ok 1 :=
  ⟨(C10_similarity_symmetry cvUnit).1 (some []) none,
    (C10_similarity_symmetry cvUnit).2 () () 1 (by
      rw [basic_image_comparison_eq cvUnit () () () () () () rfl rfl rfl rfl]
      norm_num [meanAbsDiff1, absdiff1, cvUnit])⟩
